import Mathlib

/-!
A shallow embedding of the `marathon` docker container builder
(`docker.go`): the data model (Container, Docker, Volume, PortMapping,
Parameters), the chained mutation helpers, the `ServicePortIndex` lookup,
and the JSON field serialization induced by the struct tags.  Go pointer
receivers that mutate the receiver and return it are modelled as pure
functions from the record to the updated record; Go `nil` pointers to
slices/bools are modelled as `Option`.
-/

namespace Marathon

/-- Go Volume is the docker volume details associated to the container
(fields in Go declaration order: ContainerPath, HostPath, Mode). -/
structure Volume where
  ContainerPath : String
  HostPath : String
  Mode : String
  deriving DecidableEq, Repr

/-- Go PortMapping is the portmapping structure between container and mesos. -/
structure PortMapping where
  ContainerPort : Int
  HostPort : Int
  ServicePort : Int
  Protocol : String
  deriving DecidableEq, Repr

/-- Go Parameters is a key/value parameter passed to the docker client. -/
structure Parameters where
  Key : String
  Value : String
  deriving DecidableEq, Repr

/-- Go Docker is the docker definition from a marathon application.
Pointer-typed Go fields (`*bool`, `*[]T`) become `Option`. -/
structure Docker where
  ForcePullImage : Option Bool
  Image : String
  Network : String
  Parameters : Option (List Marathon.Parameters)
  PortMappings : Option (List PortMapping)
  Privileged : Option Bool
  deriving DecidableEq, Repr

/-- Go Container is the definition for a container type in marathon.
The Go field `Type` is named by its JSON tag `type` here, since `Type` is
a Lean keyword. -/
structure Container where
  type : String
  Docker : Option Marathon.Docker
  Volumes : Option (List Volume)
  deriving DecidableEq, Repr

/-- The Go zero value `Docker{}`. -/
def Docker.empty : Docker :=
  { ForcePullImage := none, Image := "", Network := "",
    Parameters := none, PortMappings := none, Privileged := none }

/-- The Go zero value `Container{}`. -/
def Container.empty : Container :=
  { type := "", Docker := none, Volumes := none }

/-- Go EmptyVolumes explicitly empties the volumes. -/
def Container.EmptyVolumes (container : Container) : Container :=
  { container with Volumes := some [] }

/-- Go Volume attaches a volume to the container: materializes the list when
nil, then appends `Volume{ContainerPath: containerPath, HostPath: hostPath,
Mode: mode}`. -/
def Container.Volume (container : Container)
    (hostPath containerPath mode : String) : Container :=
  let container := if container.Volumes = none
    then container.EmptyVolumes else container
  let volumes := container.Volumes.getD []
  { container with
    Volumes := some (volumes ++
      [{ ContainerPath := containerPath, HostPath := hostPath, Mode := mode }]) }

/-- Go NewDockerContainer creates a default docker container. -/
def NewDockerContainer : Container :=
  { type := "DOCKER", Docker := some Docker.empty, Volumes := none }

/-- Go SetForcePullImage sets whether the image is always force pulled. -/
def Docker.SetForcePullImage (docker : Docker) (forcePull : Bool) : Docker :=
  { docker with ForcePullImage := some forcePull }

/-- Go SetPrivileged sets whether the image is started with privilege on. -/
def Docker.SetPrivileged (docker : Docker) (priv : Bool) : Docker :=
  { docker with Privileged := some priv }

/-- Go Container sets the image of the container. -/
def Docker.Container (docker : Docker) (image : String) : Docker :=
  { docker with Image := image }

/-- Go Bridged (documented as setting the networking mode to bridged)
assigns the literal string `"HOST"` to the network field. -/
def Docker.Bridged (docker : Docker) : Docker :=
  { docker with Network := "HOST" }

/-- Go EmptyPortMappings explicitly empties the port mappings. -/
def Docker.EmptyPortMappings (docker : Docker) : Docker :=
  { docker with PortMappings := some [] }

/-- Go ExposePort exposes a port in the container: materializes the list when
nil, then appends one fully specified `PortMapping`. -/
def Docker.ExposePort (docker : Docker)
    (containerPort hostPort servicePort : Int) (protocol : String) : Docker :=
  let docker := if docker.PortMappings = none
    then docker.EmptyPortMappings else docker
  let portMappings := docker.PortMappings.getD []
  { docker with
    PortMappings := some (portMappings ++
      [{ ContainerPort := containerPort, HostPort := hostPort,
         ServicePort := servicePort, Protocol := protocol }]) }

/-- Go Expose exposes the given TCP ports: `ExposePort(port, 0, 0, "tcp")`
for each port in order. -/
def Docker.Expose (docker : Docker) (ports : List Int) : Docker :=
  ports.foldl (fun d port => d.ExposePort port 0 0 "tcp") docker

/-- Go ExposeUDP exposes the given UDP ports: `ExposePort(port, 0, 0, "udp")`
for each port in order. -/
def Docker.ExposeUDP (docker : Docker) (ports : List Int) : Docker :=
  ports.foldl (fun d port => d.ExposePort port 0 0 "udp") docker

/-- Go EmptyParameters explicitly empties the parameters. -/
def Docker.EmptyParameters (docker : Docker) : Docker :=
  { docker with Parameters := some [] }

/-- Go AddParameter adds a key/value parameter: materializes the list when
nil, then appends. -/
def Docker.AddParameter (docker : Docker) (key value : String) : Docker :=
  let docker := if docker.Parameters = none
    then docker.EmptyParameters else docker
  let parameters := docker.Parameters.getD []
  { docker with
    Parameters := some (parameters ++ [{ Key := key, Value := value }]) }

/-- The two distinguishable error values `ServicePortIndex` can return:
`errors.New("The docker does not contain any port mappings to search")`
and `fmt.Errorf("The container port required was not found in the
container port mappings")`. -/
inductive ServicePortError where
  | noPortMappings
  | portNotFound
  deriving DecidableEq, Repr

/-- The `for index, containerPort := range *docker.PortMappings` loop of
`ServicePortIndex`: returns the index of the first entry whose
`ContainerPort` equals `port`, counting from `idx`. -/
def findPortIndex (port : Int) : List PortMapping → Nat → Option Nat
  | [], _ => none
  | pm :: rest, idx =>
    if pm.ContainerPort = port then some idx
    else findPortIndex port rest (idx + 1)

/-- Go ServicePortIndex finds the index of the exposed port: errors when the
mapping list is nil or empty, otherwise scans for the first match and
errors when none is found. -/
def Docker.ServicePortIndex (docker : Docker) (port : Int) :
    Except ServicePortError Nat :=
  match docker.PortMappings with
  | none => Except.error ServicePortError.noPortMappings
  | some mappings =>
    if mappings.length = 0 then Except.error ServicePortError.noPortMappings
    else
      match findPortIndex port mappings 0 with
      | some index => Except.ok index
      | none => Except.error ServicePortError.portNotFound

/-- The port-mapping list seen as a plain list (nil reads as empty). -/
def Docker.portMappingsList (docker : Docker) : List PortMapping :=
  docker.PortMappings.getD []

/-- The parameter list seen as a plain list (nil reads as empty). -/
def Docker.parametersList (docker : Docker) : List Marathon.Parameters :=
  docker.Parameters.getD []

/-- The volume list seen as a plain list (nil reads as empty). -/
def Container.volumesList (container : Container) : List Marathon.Volume :=
  container.Volumes.getD []

/-- JSON values, as produced by Go `encoding/json` for these structs. -/
inductive Json where
  | str (s : String)
  | int (n : Int)
  | bool (b : Bool)
  | arr (elems : List Json)
  | obj (fields : List (String × Json))

/-- Field of a Go string with the `omitempty` tag: omitted when `""`. -/
def strField (key s : String) : List (String × Json) :=
  if s = "" then [] else [(key, Json.str s)]

/-- Field of a Go int with the `omitempty` tag: omitted when `0`. -/
def intOmitField (key : String) (n : Int) : List (String × Json) :=
  if n = 0 then [] else [(key, Json.int n)]

/-- Field of a Go pointer with the `omitempty` tag: omitted exactly when
the pointer is nil; a non-nil pointer is marshalled through. -/
def optField (key : String) : Option Json → List (String × Json)
  | none => []
  | some j => [(key, j)]

/-- Marshalling of Volume per its tags: containerPath, hostPath, mode,
all with `omitempty`. -/
def Volume.marshal (v : Volume) : Json :=
  Json.obj (strField "containerPath" v.ContainerPath
    ++ strField "hostPath" v.HostPath
    ++ strField "mode" v.Mode)

/-- Marshalling of PortMapping per its tags: containerPort and servicePort
carry `omitempty`; hostPort and protocol do not. -/
def PortMapping.marshal (pm : PortMapping) : Json :=
  Json.obj (intOmitField "containerPort" pm.ContainerPort
    ++ [("hostPort", Json.int pm.HostPort)]
    ++ intOmitField "servicePort" pm.ServicePort
    ++ [("protocol", Json.str pm.Protocol)])

/-- Marshalling of Parameters per its tags: key and value, `omitempty`. -/
def Parameters.marshal (p : Parameters) : Json :=
  Json.obj (strField "key" p.Key ++ strField "value" p.Value)

/-- The JSON object fields of a marshalled Docker, per its struct tags
(every field carries `omitempty`; pointer fields are omitted exactly when
nil, so a non-nil pointer to an empty slice marshals as `[]`). -/
def Docker.marshalFields (docker : Docker) : List (String × Json) :=
  optField "forcePullImage" (docker.ForcePullImage.map Json.bool)
    ++ strField "image" docker.Image
    ++ strField "network" docker.Network
    ++ optField "parameters"
      (docker.Parameters.map (fun l => Json.arr (l.map Parameters.marshal)))
    ++ optField "portMappings"
      (docker.PortMappings.map (fun l => Json.arr (l.map PortMapping.marshal)))
    ++ optField "privileged" (docker.Privileged.map Json.bool)

/-- The JSON object fields of a marshalled Container, per its struct tags
(type, docker, volumes, all `omitempty`). -/
def Container.marshalFields (container : Container) : List (String × Json) :=
  strField "type" container.type
    ++ optField "docker"
      (container.Docker.map (fun d => Json.obj d.marshalFields))
    ++ optField "volumes"
      (container.Volumes.map (fun l => Json.arr (l.map Volume.marshal)))

/-- Lookup of a key in a marshalled JSON object's field list. -/
def lookupField (key : String) : List (String × Json) → Option Json
  | [] => none
  | (k, v) :: rest => if key = k then some v else lookupField key rest

/-- The append-only calls on a Container (claim C3's alphabet). -/
inductive ContainerAppendCall where
  | volume (hostPath containerPath mode : String)
  deriving DecidableEq, Repr

/-- The volume entries one append call adds. -/
def ContainerAppendCall.newVolumes : ContainerAppendCall → List Volume
  | .volume h p m => [{ ContainerPath := p, HostPath := h, Mode := m }]

/-- Runs one append call on a Container. -/
def Container.applyAppendCall (container : Container) :
    ContainerAppendCall → Container
  | .volume h p m => container.Volume h p m

/-- Runs a sequence of append calls on a Container, left to right. -/
def Container.applyAppendCalls (container : Container)
    (calls : List ContainerAppendCall) : Container :=
  calls.foldl Container.applyAppendCall container

/-- The append-only calls on a Docker (claim C3's alphabet). -/
inductive DockerAppendCall where
  | exposePort (containerPort hostPort servicePort : Int) (protocol : String)
  | expose (ports : List Int)
  | exposeUDP (ports : List Int)
  | addParameter (key value : String)
  deriving DecidableEq, Repr

/-- The port-mapping entries one append call adds. -/
def DockerAppendCall.newPortMappings : DockerAppendCall → List PortMapping
  | .exposePort cp hp sp proto =>
    [{ ContainerPort := cp, HostPort := hp, ServicePort := sp,
       Protocol := proto }]
  | .expose ports => ports.map (fun p =>
      { ContainerPort := p, HostPort := 0, ServicePort := 0,
        Protocol := "tcp" })
  | .exposeUDP ports => ports.map (fun p =>
      { ContainerPort := p, HostPort := 0, ServicePort := 0,
        Protocol := "udp" })
  | .addParameter _ _ => []

/-- The parameter entries one append call adds. -/
def DockerAppendCall.newParameters :
    DockerAppendCall → List Marathon.Parameters
  | .addParameter k v => [{ Key := k, Value := v }]
  | _ => []

/-- Runs one append call on a Docker. -/
def Docker.applyAppendCall (docker : Docker) : DockerAppendCall → Docker
  | .exposePort cp hp sp proto => docker.ExposePort cp hp sp proto
  | .expose ports => docker.Expose ports
  | .exposeUDP ports => docker.ExposeUDP ports
  | .addParameter k v => docker.AddParameter k v

/-- Runs a sequence of append calls on a Docker, left to right. -/
def Docker.applyAppendCalls (docker : Docker)
    (calls : List DockerAppendCall) : Docker :=
  calls.foldl Docker.applyAppendCall docker

/-- Every mutating call on a Container (claim C5's alphabet, appends and
clears alike). -/
inductive ContainerCall where
  | volume (hostPath containerPath mode : String)
  | emptyVolumes
  deriving DecidableEq, Repr

/-- Runs one Container call. -/
def Container.applyCall (container : Container) : ContainerCall → Container
  | .volume h p m => container.Volume h p m
  | .emptyVolumes => container.EmptyVolumes

/-- Runs a sequence of Container calls, left to right. -/
def Container.applyCalls (container : Container)
    (calls : List ContainerCall) : Container :=
  calls.foldl Container.applyCall container

/-- Every mutating call on a Docker (claim C5's alphabet, appends, clears
and scalar setters alike). -/
inductive DockerCall where
  | setForcePullImage (forcePull : Bool)
  | setPrivileged (priv : Bool)
  | container (image : String)
  | bridged
  | expose (ports : List Int)
  | exposeUDP (ports : List Int)
  | exposePort (containerPort hostPort servicePort : Int) (protocol : String)
  | emptyPortMappings
  | addParameter (key value : String)
  | emptyParameters
  deriving DecidableEq, Repr

/-- Runs one Docker call. -/
def Docker.applyCall (docker : Docker) : DockerCall → Docker
  | .setForcePullImage b => docker.SetForcePullImage b
  | .setPrivileged b => docker.SetPrivileged b
  | .container image => docker.Container image
  | .bridged => docker.Bridged
  | .expose ports => docker.Expose ports
  | .exposeUDP ports => docker.ExposeUDP ports
  | .exposePort cp hp sp proto => docker.ExposePort cp hp sp proto
  | .emptyPortMappings => docker.EmptyPortMappings
  | .addParameter k v => docker.AddParameter k v
  | .emptyParameters => docker.EmptyParameters

/-- Runs a sequence of Docker calls, left to right. -/
def Docker.applyCalls (docker : Docker) (calls : List DockerCall) : Docker :=
  calls.foldl Docker.applyCall docker

/-! Helper lemmas about the mutation helpers. -/

/-- Appending a volume rewrites the record as one explicit update. -/
theorem Container.Volume_eq (c : Container) (h p m : String) :
    c.Volume h p m = { c with Volumes := some (c.volumesList ++
      [{ ContainerPath := p, HostPath := h, Mode := m }]) } := by
  cases hv : c.Volumes <;>
    simp [Container.Volume, Container.EmptyVolumes, Container.volumesList, hv]

/-- Exposing one port rewrites the record as one explicit update. -/
theorem Docker.ExposePort_eq (d : Docker) (cp hp sp : Int) (proto : String) :
    d.ExposePort cp hp sp proto = { d with
      PortMappings := some (d.portMappingsList ++
        [{ ContainerPort := cp, HostPort := hp, ServicePort := sp,
           Protocol := proto }]) } := by
  cases hv : d.PortMappings <;>
    simp [Docker.ExposePort, Docker.EmptyPortMappings,
      Docker.portMappingsList, hv]

/-- Adding a parameter rewrites the record as one explicit update. -/
theorem Docker.AddParameter_eq (d : Docker) (k v : String) :
    d.AddParameter k v = { d with
      Parameters := some (d.parametersList ++ [{ Key := k, Value := v }]) } := by
  cases hv : d.Parameters <;>
    simp [Docker.AddParameter, Docker.EmptyParameters,
      Docker.parametersList, hv]

/-- The port-expose fold appends one mapping per port, in order. -/
theorem foldl_exposePort_pmList (proto : String) :
    ∀ (ports : List Int) (d : Docker),
      (ports.foldl (fun d port => d.ExposePort port 0 0 proto)
        d).portMappingsList =
      d.portMappingsList ++ ports.map (fun p =>
        { ContainerPort := p, HostPort := 0, ServicePort := 0,
          Protocol := proto })
  | [], d => by simp
  | p :: ps, d => by
    rw [List.foldl_cons, foldl_exposePort_pmList proto ps,
      Docker.ExposePort_eq]
    simp [Docker.portMappingsList, List.append_assoc]

/-- The port-expose fold leaves every other Docker field unchanged. -/
theorem foldl_exposePort_frame (proto : String) :
    ∀ (ports : List Int) (d : Docker),
      (ports.foldl (fun d port => d.ExposePort port 0 0 proto) d).Parameters
          = d.Parameters ∧
        (ports.foldl (fun d port => d.ExposePort port 0 0 proto) d).Image
          = d.Image ∧
        (ports.foldl (fun d port => d.ExposePort port 0 0 proto) d).Network
          = d.Network ∧
        (ports.foldl (fun d port => d.ExposePort port 0 0 proto)
            d).ForcePullImage = d.ForcePullImage ∧
        (ports.foldl (fun d port => d.ExposePort port 0 0 proto)
            d).Privileged = d.Privileged
  | [], d => by simp
  | p :: ps, d => by
    simpa [Docker.ExposePort_eq] using foldl_exposePort_frame proto ps
      (d.ExposePort p 0 0 proto)

/-- The port-expose fold keeps the port-mapping list present. -/
theorem foldl_exposePort_isSome (proto : String) :
    ∀ (ports : List Int) (d : Docker),
      d.PortMappings.isSome = true →
      (ports.foldl (fun d port => d.ExposePort port 0 0 proto)
        d).PortMappings.isSome = true
  | [], _, h => h
  | p :: ps, d, _ => by
    simp only [List.foldl_cons]
    exact foldl_exposePort_isSome proto ps (d.ExposePort p 0 0 proto)
      (by simp [Docker.ExposePort_eq])

/-- The scan returns nothing exactly when no entry matches. -/
theorem findPortIndex_eq_none (port : Int) :
    ∀ (l : List PortMapping) (n : Nat),
      findPortIndex port l n = none ↔ ∀ pm ∈ l, pm.ContainerPort ≠ port
  | [], n => by simp [findPortIndex]
  | pm :: rest, n => by
    by_cases h : pm.ContainerPort = port <;>
      simp [findPortIndex, h, findPortIndex_eq_none port rest (n + 1)]

/-- The scan finds the first index whose entry matches. -/
theorem findPortIndex_first (port : Int) :
    ∀ (l : List PortMapping) (i n : Nat) (hi : i < l.length),
      (l.get ⟨i, hi⟩).ContainerPort = port →
      (∀ j (hj : j < l.length), j < i →
        (l.get ⟨j, hj⟩).ContainerPort ≠ port) →
      findPortIndex port l n = some (n + i)
  | [], i, n, hi => by simp at hi
  | pm :: rest, 0, n, hi => by
    intro hmatch _
    simp only [List.get] at hmatch
    simp [findPortIndex, hmatch]
  | pm :: rest, i + 1, n, hi => by
    intro hmatch hbefore
    have hpm : pm.ContainerPort ≠ port := by
      have := hbefore 0 (by simp) (Nat.succ_pos i)
      simpa using this
    have hrest := findPortIndex_first port rest i (n + 1)
      (by simpa using Nat.lt_of_succ_lt_succ hi)
      (by simpa using hmatch)
      (fun j hj hji => by
        have := hbefore (j + 1) (by simpa using Nat.succ_lt_succ hj)
          (Nat.succ_lt_succ hji)
        simpa using this)
    simp only [findPortIndex, if_neg hpm, hrest]
    congr 1
    omega

/-- Every Container call keeps the volume list present once it is. -/
theorem applyCall_volumes_isSome (c : Container) (call : ContainerCall)
    (_h : c.Volumes.isSome = true) :
    (c.applyCall call).Volumes.isSome = true := by
  cases call <;>
    simp [Container.applyCall, Container.Volume_eq, Container.EmptyVolumes]

/-- A Container call sequence keeps the volume list present. -/
theorem applyCalls_volumes_isSome :
    ∀ (calls : List ContainerCall) (c : Container),
      c.Volumes.isSome = true →
      (c.applyCalls calls).Volumes.isSome = true
  | [], _, h => h
  | call :: rest, c, h =>
    applyCalls_volumes_isSome rest (c.applyCall call)
      (applyCall_volumes_isSome c call h)

/-- Every Docker call keeps the port-mapping list present once it is. -/
theorem applyCall_portMappings_isSome (d : Docker) (call : DockerCall)
    (h : d.PortMappings.isSome = true) :
    (d.applyCall call).PortMappings.isSome = true := by
  cases call with
  | expose ports => exact foldl_exposePort_isSome "tcp" ports d h
  | exposeUDP ports => exact foldl_exposePort_isSome "udp" ports d h
  | _ =>
    simp_all [Docker.applyCall, Docker.ExposePort_eq, Docker.AddParameter_eq,
      Docker.SetForcePullImage, Docker.SetPrivileged, Docker.Container,
      Docker.Bridged, Docker.EmptyPortMappings, Docker.EmptyParameters]

/-- A Docker call sequence keeps the port-mapping list present. -/
theorem applyCalls_portMappings_isSome :
    ∀ (calls : List DockerCall) (d : Docker),
      d.PortMappings.isSome = true →
      (d.applyCalls calls).PortMappings.isSome = true
  | [], _, h => h
  | call :: rest, d, h =>
    applyCalls_portMappings_isSome rest (d.applyCall call)
      (applyCall_portMappings_isSome d call h)

/-- Every Docker call keeps the parameter list present once it is. -/
theorem applyCall_parameters_isSome (d : Docker) (call : DockerCall)
    (h : d.Parameters.isSome = true) :
    (d.applyCall call).Parameters.isSome = true := by
  cases call with
  | expose ports =>
    have := (foldl_exposePort_frame "tcp" ports d).1
    simpa [Docker.applyCall, Docker.Expose, this]
  | exposeUDP ports =>
    have := (foldl_exposePort_frame "udp" ports d).1
    simpa [Docker.applyCall, Docker.ExposeUDP, this]
  | _ =>
    simp_all [Docker.applyCall, Docker.ExposePort_eq, Docker.AddParameter_eq,
      Docker.SetForcePullImage, Docker.SetPrivileged, Docker.Container,
      Docker.Bridged, Docker.EmptyPortMappings, Docker.EmptyParameters]

/-- A Docker call sequence keeps the parameter list present. -/
theorem applyCalls_parameters_isSome :
    ∀ (calls : List DockerCall) (d : Docker),
      d.Parameters.isSome = true →
      (d.applyCalls calls).Parameters.isSome = true
  | [], _, h => h
  | call :: rest, d, h =>
    applyCalls_parameters_isSome rest (d.applyCall call)
      (applyCall_parameters_isSome d call h)

/-- One Container append call appends exactly its entries. -/
theorem applyAppendCall_volumesList (c : Container)
    (call : ContainerAppendCall) :
    (c.applyAppendCall call).volumesList = c.volumesList ++ call.newVolumes := by
  cases call with
  | volume h p m =>
    simp [Container.applyAppendCall, Container.Volume_eq,
      ContainerAppendCall.newVolumes, Container.volumesList]

/-- A Container append sequence appends exactly its entries, in order. -/
theorem applyAppendCalls_volumesList :
    ∀ (calls : List ContainerAppendCall) (c : Container),
      (c.applyAppendCalls calls).volumesList =
        c.volumesList ++ (calls.map ContainerAppendCall.newVolumes).flatten
  | [], c => by simp [Container.applyAppendCalls]
  | call :: rest, c => by
    have hrest := applyAppendCalls_volumesList rest (c.applyAppendCall call)
    simp only [Container.applyAppendCalls, List.foldl_cons] at hrest ⊢
    rw [hrest, applyAppendCall_volumesList]
    simp [List.append_assoc]

/-- One Docker append call appends exactly its entries to each list. -/
theorem applyAppendCall_lists (d : Docker) (call : DockerAppendCall) :
    (d.applyAppendCall call).portMappingsList =
        d.portMappingsList ++ call.newPortMappings ∧
      (d.applyAppendCall call).parametersList =
        d.parametersList ++ call.newParameters := by
  cases call with
  | exposePort cp hp sp proto =>
    simp [Docker.applyAppendCall, Docker.ExposePort_eq,
      DockerAppendCall.newPortMappings, DockerAppendCall.newParameters,
      Docker.portMappingsList, Docker.parametersList]
  | expose ports =>
    refine ⟨foldl_exposePort_pmList "tcp" ports d, ?_⟩
    have := (foldl_exposePort_frame "tcp" ports d).1
    simp [Docker.applyAppendCall, Docker.Expose,
      DockerAppendCall.newParameters, Docker.parametersList, this]
  | exposeUDP ports =>
    refine ⟨foldl_exposePort_pmList "udp" ports d, ?_⟩
    have := (foldl_exposePort_frame "udp" ports d).1
    simp [Docker.applyAppendCall, Docker.ExposeUDP,
      DockerAppendCall.newParameters, Docker.parametersList, this]
  | addParameter k v =>
    simp [Docker.applyAppendCall, Docker.AddParameter_eq,
      DockerAppendCall.newPortMappings, DockerAppendCall.newParameters,
      Docker.portMappingsList, Docker.parametersList]

/-- A Docker append sequence appends exactly its entries, in order. -/
theorem applyAppendCalls_lists :
    ∀ (calls : List DockerAppendCall) (d : Docker),
      (d.applyAppendCalls calls).portMappingsList = d.portMappingsList ++
          (calls.map DockerAppendCall.newPortMappings).flatten ∧
        (d.applyAppendCalls calls).parametersList = d.parametersList ++
          (calls.map DockerAppendCall.newParameters).flatten
  | [], d => by simp [Docker.applyAppendCalls]
  | call :: rest, d => by
    have hrest := applyAppendCalls_lists rest (d.applyAppendCall call)
    have hstep := applyAppendCall_lists d call
    simp only [Docker.applyAppendCalls, List.foldl_cons] at hrest ⊢
    rw [hrest.1, hrest.2, hstep.1, hstep.2]
    simp [List.append_assoc]

/-! The claim theorems. -/

/-- C3: for every starting state and every sequence of append calls
(Volume on a Container; ExposePort, Expose, ExposeUDP and AddParameter on
a Docker), the resulting list holds the previously present entries
followed by the appended entries in call order, and its length equals the
initial length plus the number of appended entries. -/
theorem appendCalls_order_length (c : Container)
    (ccalls : List ContainerAppendCall) (d : Docker)
    (dcalls : List DockerAppendCall) :
    (c.applyAppendCalls ccalls).volumesList =
        c.volumesList ++ (ccalls.map ContainerAppendCall.newVolumes).flatten ∧
      (c.applyAppendCalls ccalls).volumesList.length =
        c.volumesList.length +
          (ccalls.map ContainerAppendCall.newVolumes).flatten.length ∧
      (d.applyAppendCalls dcalls).portMappingsList =
        d.portMappingsList ++
          (dcalls.map DockerAppendCall.newPortMappings).flatten ∧
      (d.applyAppendCalls dcalls).portMappingsList.length =
        d.portMappingsList.length +
          (dcalls.map DockerAppendCall.newPortMappings).flatten.length ∧
      (d.applyAppendCalls dcalls).parametersList =
        d.parametersList ++
          (dcalls.map DockerAppendCall.newParameters).flatten ∧
      (d.applyAppendCalls dcalls).parametersList.length =
        d.parametersList.length +
          (dcalls.map DockerAppendCall.newParameters).flatten.length := by
  refine ⟨applyAppendCalls_volumesList ccalls c, ?_,
    (applyAppendCalls_lists dcalls d).1, ?_,
    (applyAppendCalls_lists dcalls d).2, ?_⟩
  · rw [applyAppendCalls_volumesList ccalls c, List.length_append]
  · rw [(applyAppendCalls_lists dcalls d).1, List.length_append]
  · rw [(applyAppendCalls_lists dcalls d).2, List.length_append]

/-- C4: each append helper, called while its list field is nil, leaves the
field present and holding exactly the appended entry. -/
theorem append_materializes_unset :
    (∀ (c : Container) (h p m : String), c.Volumes = none →
      (c.Volume h p m).Volumes =
        some [{ ContainerPath := p, HostPath := h, Mode := m }]) ∧
      (∀ (d : Docker) (cp hp sp : Int) (proto : String),
        d.PortMappings = none →
        (d.ExposePort cp hp sp proto).PortMappings =
          some [{ ContainerPort := cp, HostPort := hp, ServicePort := sp,
                  Protocol := proto }]) ∧
      (∀ (d : Docker) (k v : String), d.Parameters = none →
        (d.AddParameter k v).Parameters = some [{ Key := k, Value := v }]) := by
  refine ⟨fun c h p m hnone => ?_, fun d cp hp sp proto hnone => ?_,
    fun d k v hnone => ?_⟩
  · rw [Container.Volume_eq]
    simp [Container.volumesList, hnone]
  · rw [Docker.ExposePort_eq]
    simp [Docker.portMappingsList, hnone]
  · rw [Docker.AddParameter_eq]
    simp [Docker.parametersList, hnone]

/-- Witness for C4: the three appends at concrete unset records. -/
theorem append_materializes_unset_witness :
    Container.empty.Volumes = none ∧
      (Container.empty.Volume "/host" "/container" "RW").Volumes =
        some [{ ContainerPath := "/container", HostPath := "/host",
                Mode := "RW" }] ∧
      Docker.empty.PortMappings = none ∧
      (Docker.empty.ExposePort 80 8080 0 "tcp").PortMappings =
        some [{ ContainerPort := 80, HostPort := 8080, ServicePort := 0,
                Protocol := "tcp" }] ∧
      Docker.empty.Parameters = none ∧
      (Docker.empty.AddParameter "key" "value").Parameters =
        some [{ Key := "key", Value := "value" }] :=
  ⟨rfl,
    append_materializes_unset.1 Container.empty "/host" "/container" "RW" rfl,
    rfl,
    append_materializes_unset.2.1 Docker.empty 80 8080 0 "tcp" rfl,
    rfl,
    append_materializes_unset.2.2 Docker.empty "key" "value" rfl⟩

/-- C5: after an explicit clear the list field is present and empty, and
it stays present under every later call sequence, clears included. -/
theorem empty_then_calls_present (c : Container)
    (ccalls : List ContainerCall) (d : Docker) (dcalls : List DockerCall) :
    c.EmptyVolumes.Volumes = some [] ∧
      (c.EmptyVolumes.applyCalls ccalls).Volumes.isSome = true ∧
      d.EmptyPortMappings.PortMappings = some [] ∧
      (d.EmptyPortMappings.applyCalls dcalls).PortMappings.isSome = true ∧
      d.EmptyParameters.Parameters = some [] ∧
      (d.EmptyParameters.applyCalls dcalls).Parameters.isSome = true :=
  ⟨rfl,
    applyCalls_volumes_isSome ccalls c.EmptyVolumes
      (by simp [Container.EmptyVolumes]),
    rfl,
    applyCalls_portMappings_isSome dcalls d.EmptyPortMappings
      (by simp [Docker.EmptyPortMappings]),
    rfl,
    applyCalls_parameters_isSome dcalls d.EmptyParameters
      (by simp [Docker.EmptyParameters])⟩

/-- C7: NewDockerContainer has type tag DOCKER, a present nested Docker
whose every field is unset or zero, and no volumes. -/
theorem newDockerContainer_defaults :
    NewDockerContainer.type = "DOCKER" ∧
      NewDockerContainer.Docker = some Docker.empty ∧
      Docker.empty.ForcePullImage = none ∧
      Docker.empty.Image = "" ∧
      Docker.empty.Network = "" ∧
      Docker.empty.Parameters = none ∧
      Docker.empty.PortMappings = none ∧
      Docker.empty.Privileged = none ∧
      NewDockerContainer.Volumes = none :=
  ⟨rfl, rfl, rfl, rfl, rfl, rfl, rfl, rfl, rfl⟩

/-- C8: Expose and ExposeUDP append one mapping per port in argument
order, with hostPort 0, servicePort 0 and the respective protocol, and
change no other field of the record. -/
theorem expose_appends (d : Docker) (ports : List Int) :
    (d.Expose ports).portMappingsList = d.portMappingsList ++
        ports.map (fun p => { ContainerPort := p, HostPort := 0,
                              ServicePort := 0, Protocol := "tcp" }) ∧
      (d.ExposeUDP ports).portMappingsList = d.portMappingsList ++
        ports.map (fun p => { ContainerPort := p, HostPort := 0,
                              ServicePort := 0, Protocol := "udp" }) ∧
      (d.Expose ports).Parameters = d.Parameters ∧
      (d.Expose ports).Image = d.Image ∧
      (d.Expose ports).Network = d.Network ∧
      (d.Expose ports).ForcePullImage = d.ForcePullImage ∧
      (d.Expose ports).Privileged = d.Privileged ∧
      (d.ExposeUDP ports).Parameters = d.Parameters ∧
      (d.ExposeUDP ports).Image = d.Image ∧
      (d.ExposeUDP ports).Network = d.Network ∧
      (d.ExposeUDP ports).ForcePullImage = d.ForcePullImage ∧
      (d.ExposeUDP ports).Privileged = d.Privileged :=
  ⟨foldl_exposePort_pmList "tcp" ports d,
    foldl_exposePort_pmList "udp" ports d,
    (foldl_exposePort_frame "tcp" ports d).1,
    (foldl_exposePort_frame "tcp" ports d).2.1,
    (foldl_exposePort_frame "tcp" ports d).2.2.1,
    (foldl_exposePort_frame "tcp" ports d).2.2.2.1,
    (foldl_exposePort_frame "tcp" ports d).2.2.2.2,
    (foldl_exposePort_frame "udp" ports d).1,
    (foldl_exposePort_frame "udp" ports d).2.1,
    (foldl_exposePort_frame "udp" ports d).2.2.1,
    (foldl_exposePort_frame "udp" ports d).2.2.2.1,
    (foldl_exposePort_frame "udp" ports d).2.2.2.2⟩

/-- C9: the method named Bridged assigns the fixed host-network token
HOST to the network field (never a bridged token, despite its name),
leaves every other field as it was, and returns the receiver. -/
theorem bridged_sets_host_network (d : Docker) :
    d.Bridged.Network = "HOST" ∧ d.Bridged = { d with Network := "HOST" } :=
  ⟨rfl, rfl⟩

/-- C10: Expose and ExposeUDP on an empty port list change nothing (an
unset port-mapping list stays unset), while a single ExposePort call
always leaves the list present. -/
theorem expose_nil_ports_noop (d : Docker) :
    d.Expose [] = d ∧ d.ExposeUDP [] = d ∧
      ∀ (cp hp sp : Int) (proto : String),
        (d.ExposePort cp hp sp proto).PortMappings.isSome = true :=
  ⟨rfl, rfl, fun cp hp sp proto => by simp [Docker.ExposePort_eq]⟩

/-- C1: ServicePortIndex yields the NoPortMappings error exactly when the
port-mapping list is nil or empty, the PortNotFound error exactly when
the list is non-empty with no matching containerPort, and succeeds in
every other case. -/
theorem servicePortIndex_errors (docker : Docker) (port : Int) :
    (docker.ServicePortIndex port =
        Except.error ServicePortError.noPortMappings ↔
      docker.PortMappings = none ∨ docker.PortMappings = some []) ∧
      (docker.ServicePortIndex port =
          Except.error ServicePortError.portNotFound ↔
        ∃ l, docker.PortMappings = some l ∧ l ≠ [] ∧
          ∀ pm ∈ l, pm.ContainerPort ≠ port) ∧
      ((∃ i, docker.ServicePortIndex port = Except.ok i) ↔
        ∃ l, docker.PortMappings = some l ∧
          ∃ pm ∈ l, pm.ContainerPort = port) := by
  rcases hd : docker.PortMappings with _ | l
  · simp [Docker.ServicePortIndex, hd]
  · rcases l with _ | ⟨pm0, rest⟩
    · simp [Docker.ServicePortIndex, hd]
    · rcases hf : findPortIndex port (pm0 :: rest) 0 with _ | i
      · have hall := (findPortIndex_eq_none port (pm0 :: rest) 0).mp hf
        have hres : docker.ServicePortIndex port =
            Except.error ServicePortError.portNotFound := by
          simp [Docker.ServicePortIndex, hd, hf]
        refine ⟨iff_of_false (by simp [hres]) (by simp),
          ⟨fun _ => ⟨pm0 :: rest, rfl, by simp, hall⟩, fun _ => hres⟩,
          iff_of_false ?_ ?_⟩
        · rintro ⟨i, hi⟩
          rw [hres] at hi
          exact Except.noConfusion hi
        · rintro ⟨l, hl, pm, hpm, hp⟩
          injection hl with hl'
          subst hl'
          exact hall pm hpm hp
      · have hex : ∃ pm ∈ pm0 :: rest, pm.ContainerPort = port := by
          by_contra hno
          push_neg at hno
          have hnone : findPortIndex port (pm0 :: rest) 0 = none :=
            (findPortIndex_eq_none port (pm0 :: rest) 0).mpr hno
          rw [hnone] at hf
          exact Option.noConfusion hf
        have hnall : ¬∀ pm ∈ pm0 :: rest, pm.ContainerPort ≠ port := by
          intro hall
          obtain ⟨pm, hpm, hp⟩ := hex
          exact hall pm hpm hp
        have hres : docker.ServicePortIndex port = Except.ok i := by
          simp [Docker.ServicePortIndex, hd, hf]
        refine ⟨iff_of_false (by simp [hres]) (by simp),
          iff_of_false (by simp [hres]) ?_,
          iff_of_true ⟨i, hres⟩ ⟨pm0 :: rest, rfl, hex⟩⟩
        rintro ⟨l, hl, hne, hall⟩
        injection hl with hl'
        subst hl'
        exact hnall hall

/-- C2: when some entry matches, ServicePortIndex returns the zero-based
index of the first matching entry; in particular two TCP exposes of 80
and 443 on a fresh record make the lookup of 443 return index 1. -/
theorem servicePortIndex_first_match :
    (∀ (docker : Docker) (port : Int) (l : List PortMapping) (i : Nat),
      docker.PortMappings = some l → ∀ (hi : i < l.length),
      (l.get ⟨i, hi⟩).ContainerPort = port →
      (∀ j (hj : j < l.length), j < i →
        (l.get ⟨j, hj⟩).ContainerPort ≠ port) →
      docker.ServicePortIndex port = Except.ok i) ∧
      (Docker.empty.Expose [80, 443]).ServicePortIndex 443 = Except.ok 1 := by
  constructor
  · intro docker port l i hl hi hmatch hbefore
    have hf := findPortIndex_first port l i 0 hi hmatch hbefore
    have hlen : ¬l.length = 0 := by omega
    simp [Docker.ServicePortIndex, hl, hlen, hf]
  · rfl

/-- Witness for C2: the general first-match statement applied to a record
with mappings for ports 80 and 443. -/
theorem servicePortIndex_first_match_witness :
    (1 : Nat) <
        ([⟨80, 0, 0, "tcp"⟩, ⟨443, 0, 0, "tcp"⟩] :
          List PortMapping).length ∧
      (⟨none, "", "",
          none, some [⟨80, 0, 0, "tcp"⟩, ⟨443, 0, 0, "tcp"⟩], none⟩ :
        Docker).ServicePortIndex 443 = Except.ok 1 :=
  ⟨by decide,
    servicePortIndex_first_match.1 _ 443 _ 1 rfl (by decide) (by decide)
      (by decide)⟩

/-- C6: each unset optional field (docker, volumes, forcePullImage,
parameters, portMappings, privileged) is absent from the serialized
object, and a present field marshals to its value, so an
explicitly-cleared list marshals as a present empty array. -/
theorem marshal_omits_unset (c : Container) (d : Docker) :
    lookupField "docker" c.marshalFields =
        c.Docker.map (fun dk => Json.obj dk.marshalFields) ∧
      lookupField "volumes" c.marshalFields =
        c.Volumes.map (fun l => Json.arr (l.map Volume.marshal)) ∧
      lookupField "forcePullImage" d.marshalFields =
        d.ForcePullImage.map Json.bool ∧
      lookupField "parameters" d.marshalFields =
        d.Parameters.map (fun l => Json.arr (l.map Parameters.marshal)) ∧
      lookupField "portMappings" d.marshalFields =
        d.PortMappings.map (fun l => Json.arr (l.map PortMapping.marshal)) ∧
      lookupField "privileged" d.marshalFields =
        d.Privileged.map Json.bool := by
  obtain ⟨ty, dk, vols⟩ := c
  obtain ⟨fpi, img, net, params, pms, priv⟩ := d
  refine ⟨?_, ?_, ?_, ?_, ?_, ?_⟩
  · cases dk <;> cases vols <;> by_cases ht : ty = "" <;>
      simp [Container.marshalFields, strField, optField, lookupField, ht]
  · cases dk <;> cases vols <;> by_cases ht : ty = "" <;>
      simp [Container.marshalFields, strField, optField, lookupField, ht]
  · cases fpi <;> cases params <;> cases pms <;> cases priv <;>
      by_cases h1 : img = "" <;> by_cases h2 : net = "" <;>
      simp [Docker.marshalFields, strField, optField, lookupField, h1, h2]
  · cases fpi <;> cases params <;> cases pms <;> cases priv <;>
      by_cases h1 : img = "" <;> by_cases h2 : net = "" <;>
      simp [Docker.marshalFields, strField, optField, lookupField, h1, h2]
  · cases fpi <;> cases params <;> cases pms <;> cases priv <;>
      by_cases h1 : img = "" <;> by_cases h2 : net = "" <;>
      simp [Docker.marshalFields, strField, optField, lookupField, h1, h2]
  · cases fpi <;> cases params <;> cases pms <;> cases priv <;>
      by_cases h1 : img = "" <;> by_cases h2 : net = "" <;>
      simp [Docker.marshalFields, strField, optField, lookupField, h1, h2]

end Marathon
